import Mathlib

/-!
Shallow embedding of the minecraft-scripts repository's backup manager
(manage-backups/manage_backups.py) and proofs about its retention and
scheduling policy.

Time is modelled in integer seconds: a datetime.datetime is a point in time
(an Int), a datetime.timedelta is a signed duration (an Int).  Python compares
both with the usual order, and abs on a timedelta is the absolute value.
-/

namespace ManageBackups

/-- Seconds in a minute. -/
def minute : Int := 60

/-- Seconds in a day, timedelta(days=1). -/
def day : Int := 86400

/-- Seconds in a week, timedelta(weeks=1). -/
def week : Int := 7 * day

/-- An archive that exists on the filesystem (class BackupFile), carrying the
last-modified time its storage metadata reports (path.stat().st_mtime, the
value get_mtime returns). -/
structure BackupFile where
  path : String
  mtime : Int
  deriving DecidableEq, Repr

/-- BackupFile.is_older_than_dt: whether this archive is older than some
datetime. -/
def BackupFile.is_older_than_dt (b : BackupFile) (dt : Int) : Bool :=
  decide (b.mtime < dt)

/-- BackupFile.is_older_than_delta: whether this archive is older than some
timedelta.  delta may be positive or negative; either way it is taken to
represent a time in the past, now - abs(delta), where now stands for
datetime.datetime.now(). -/
def BackupFile.is_older_than_delta (b : BackupFile) (now delta : Int) : Bool :=
  b.is_older_than_dt (now - |delta|)

/-- One file below a tier directory: its path relative to the directory and
its last-modified time. -/
structure FsEntry where
  relPath : String
  mtime : Int
  deriving DecidableEq, Repr

/-- A tier directory as the scanner observes it: readable says whether the
directory exists and can be scanned, entries are the files below it. -/
structure TierDir where
  readable : Bool
  entries : List FsEntry
  deriving Repr

/-- Path components of a relative path, split at the '/' separator. -/
def pathComponents : List Char → List (List Char)
  | [] => [[]]
  | c :: rest =>
    if c = '/' then [] :: pathComponents rest
    else
      match pathComponents rest with
      | [] => [[c]]
      | h :: t => (c :: h) :: t

/-- Whether one path component is hidden, i.e. begins with a dot; the glob
wildcards skip such names. -/
def isHidden : List Char → Bool
  | [] => false
  | c :: _ => c = '.'

/-- Whether a relative path is matched by the recursive glob pattern
"**&#47;*.tar.gz": no path component is hidden (glob's "*" and "**" do not match
a leading dot) and the final component ends in ".tar.gz". -/
def matchesBackupGlob (relPath : String) : Bool :=
  let comps := pathComponents relPath.data
  comps.all (fun c => !isHidden c) &&
    ((comps.getLast?.map (fun c => List.isSuffixOf ".tar.gz".data c)).getD false)

/-- get_backup_files: glob.glob of the backup pattern with root_dir=root_dir
and recursive=True, each match wrapped into a BackupFile.  glob suppresses
OSError while scanning, so a root_dir that does not exist or is unreadable
yields no matches instead of raising; an empty directory also yields no
matches. -/
def get_backup_files (dir : TierDir) : List BackupFile :=
  if dir.readable then
    (dir.entries.filter (fun e => matchesBackupGlob e.relPath)).map
      (fun e => { path := e.relPath, mtime := e.mtime })
  else []

/-- needs_daily_backup: all existing daily backups are older than
timedelta(days=1, minutes=-30), i.e. 23h30m.  Vacuously true when there are
none.  The dir argument stands for the filesystem state at BACKUPS_DAILY. -/
def needs_daily_backup (dir : TierDir) (now : Int) : Bool :=
  (get_backup_files dir).all (fun b => b.is_older_than_delta now (day - 30 * minute))

/-- needs_weekly_backup: all existing weekly backups are older than
timedelta(weeks=1, minutes=-30). -/
def needs_weekly_backup (dir : TierDir) (now : Int) : Bool :=
  (get_backup_files dir).all (fun b => b.is_older_than_delta now (week - 30 * minute))

/-- needs_monthly_backup: all existing monthly backups are older than
timedelta(days=30, minutes=-30). -/
def needs_monthly_backup (dir : TierDir) (now : Int) : Bool :=
  (get_backup_files dir).all (fun b => b.is_older_than_delta now (30 * day - 30 * minute))

/-- delete_backups_older_than_delta: the records the deletion loop unlinks,
namely the backups in parent_dir older than delta. -/
def delete_backups_older_than_delta (dir : TierDir) (now delta : Int) : List BackupFile :=
  (get_backup_files dir).filter (fun b => b.is_older_than_delta now delta)

/-- delete_old_backups: the records unlinked by the three tier passes, run
with deltas timedelta(days=4), timedelta(weeks=3) and timedelta(days=60). -/
def delete_old_backups (dd wd md : TierDir) (now : Int) :
    List BackupFile × List BackupFile × List BackupFile :=
  (delete_backups_older_than_delta dd now (4 * day),
   delete_backups_older_than_delta wd now (3 * week),
   delete_backups_older_than_delta md now (60 * day))

/-- Effect of path.unlink() on a directory listing: entries whose relative
path is among the unlinked paths disappear. -/
def unlinkAll (entries : List FsEntry) (paths : List String) : List FsEntry :=
  entries.filter (fun e => decide (e.relPath ∉ paths))

/-- One tier's deletion pass as a whole: scan the directory, select the
backups older than delta, unlink each selected record's path; the result is
the directory afterwards. -/
def delete_pass (dir : TierDir) (now delta : Int) : TierDir :=
  let unlinked := (delete_backups_older_than_delta dir now delta).map (fun b => b.path)
  { dir with entries := unlinkAll dir.entries unlinked }

/-- get_new_backup_filename: datetime.now().strftime of
"backup-%Y%m%d-%H%M%S.tar.gz".  The stamp argument is the formatted
"%Y%m%d-%H%M%S" timestamp for the current time.  The produced name carries
no gametime segment. -/
def get_new_backup_filename (stamp : String) : String :=
  "backup-" ++ stamp ++ ".tar.gz"

/-- External commands the orchestrator can issue.  queryGametime is listed
because the repository's tests exercise a gametime query, but create_backup
as written never issues it. -/
inductive Cmd where
  | stopServer
  | tarArchive (archivePath : String)
  | startServer
  | queryGametime
  deriving DecidableEq, Repr

/-- Exit status of each external command for one run; with check=True a
non-zero exit makes subprocess.run raise CalledProcessError. -/
structure Env where
  stopOk : Bool
  tarOk : Bool
  startOk : Bool
  deriving DecidableEq, Repr

/-- The CalledProcessError that escapes create_backup, tagged by the step
whose command failed. -/
inductive BackupError where
  | stopFailed
  | tarFailed
  | startFailed
  deriving DecidableEq, Repr

/-- create_backup: stop the server, tar the live data directory into
parent_dir joined with get_new_backup_filename, start the server again and
return the new backup's path.  Every subprocess.run uses check=True, so a
failing command raises and the statements after it do not run.  The first
component is the trace of commands actually invoked, in order; the second is
the outcome create_backup reports to its caller. -/
def create_backup (env : Env) (parentDir stamp : String) :
    List Cmd × Except BackupError String :=
  if !env.stopOk then
    ([Cmd.stopServer], Except.error BackupError.stopFailed)
  else
    let backupPath := parentDir ++ "/" ++ get_new_backup_filename stamp
    if !env.tarOk then
      ([Cmd.stopServer, Cmd.tarArchive backupPath], Except.error BackupError.tarFailed)
    else if !env.startOk then
      ([Cmd.stopServer, Cmd.tarArchive backupPath, Cmd.startServer],
        Except.error BackupError.startFailed)
    else
      ([Cmd.stopServer, Cmd.tarArchive backupPath, Cmd.startServer],
        Except.ok backupPath)

/-- A record's path together with what the filesystem reports on each
successive stat() of that path: statResult k is the st_mtime observed by the
k-th read.  get_mtime performs a fresh stat on every call, so nothing caches
these values. -/
structure StatFile where
  path : String
  statResult : Nat → Int

/-- get_mtime as the effectful read it is in the source: stat the path once
more and return the observed mtime together with the updated read count. -/
def StatFile.get_mtime (f : StatFile) (reads : Nat) : Int × Nat :=
  (f.statResult reads, reads + 1)

/-- is_older_than_delta as an effectful computation: it calls get_mtime once
and compares the observed mtime against now - abs(delta). -/
def StatFile.is_older_than_delta_eff (f : StatFile) (now delta : Int) (reads : Nat) :
    Bool × Nat :=
  let r := f.get_mtime reads
  (decide (r.1 < now - |delta|), r.2)

/-- The body of delete_backups_older_than_delta's loop for one record:
evaluate is_older_than_delta (first stat); when the record is selected the
log line evaluates get_mtime again (second stat) and the path is unlinked.
Returns whether the record was unlinked, the mtime value written to the log
if any, and how many stats were performed. -/
def delete_decision (f : StatFile) (now delta : Int) : Bool × Option Int × Nat :=
  let olderR := f.is_older_than_delta_eff now delta 0
  if olderR.1 then
    let logR := f.get_mtime olderR.2
    (true, some logR.1, logR.2)
  else
    (false, none, olderR.2)

/-! Basic lemmas shared by the claim theorems. -/

/-- The Bool returned by is_older_than_delta, as an order proposition. -/
theorem is_older_than_delta_eq_true (b : BackupFile) (now delta : Int) :
    b.is_older_than_delta now delta = true ↔ b.mtime < now - |delta| := by
  simp [BackupFile.is_older_than_delta, BackupFile.is_older_than_dt]

/-- The daily max_age timedelta(days=1, minutes=-30) is nonnegative. -/
theorem abs_daily_max_age : |day - 30 * minute| = day - 30 * minute := by
  norm_num [day, minute]

/-- The weekly max_age timedelta(weeks=1, minutes=-30) is nonnegative. -/
theorem abs_weekly_max_age : |week - 30 * minute| = week - 30 * minute := by
  norm_num [week, day, minute]

/-- The monthly max_age timedelta(days=30, minutes=-30) is nonnegative. -/
theorem abs_monthly_max_age : |30 * day - 30 * minute| = 30 * day - 30 * minute := by
  norm_num [day, minute]

/-- The daily retention timedelta(days=4) is nonnegative. -/
theorem abs_daily_retention : |4 * day| = 4 * day := by
  norm_num [day]

/-- The weekly retention timedelta(weeks=3) is nonnegative. -/
theorem abs_weekly_retention : |3 * week| = 3 * week := by
  norm_num [week, day]

/-- The monthly retention timedelta(days=60) is nonnegative. -/
theorem abs_monthly_retention : |60 * day| = 60 * day := by
  norm_num [day]

/-- C8: for every record, current time and duration, is_older_than_delta
applied to the negated duration gives the same result as applied to the
duration itself: the comparison is sign-insensitive in the duration
argument. -/
theorem is_older_than_delta_sign_insensitive (b : BackupFile) (now delta : Int) :
    b.is_older_than_delta now (-delta) = b.is_older_than_delta now delta := by
  simp [BackupFile.is_older_than_delta, abs_neg]

/-- C5 counterexample: a daily tier holding exactly one archive of age 23h40m
(mtime 0 at now = 85200 s) makes needs_daily_backup return true, not false as
the claim states: the archive is older than the 23h30m threshold, so a new
backup is due. -/
theorem needs_daily_backup_23h40m_concrete :
    needs_daily_backup { readable := true, entries := [⟨"b.tar.gz", 0⟩] } 85200 = true := by
  decide

/-- C5 amended: for a daily tier containing exactly one archive whose age is
23h40m, needs_daily_backup returns true — the archive's age exceeds the
tolerance-adjusted threshold of 23h30m, so every record is older than it and
a backup is due. -/
theorem needs_daily_backup_23h40m (now : Int) (p : String) :
    needs_daily_backup { readable := true, entries := [⟨p, now - 85200⟩] } now = true := by
  cases h : matchesBackupGlob p <;>
    simp [needs_daily_backup, get_backup_files, h, BackupFile.is_older_than_delta,
      BackupFile.is_older_than_dt, day, minute]

/-- C6 counterexample: on a tier directory that does not exist or is
unreadable, the scanner returns the empty record set (glob suppresses the
OSError) instead of propagating a fatal error. -/
theorem get_backup_files_unreadable_concrete :
    get_backup_files { readable := false, entries := [⟨"a.tar.gz", 0⟩] } = [] := by
  rfl

/-- C6 amended: the scanner never fails: an existing but empty tier directory
yields the empty record set, and a missing or unreadable directory also
yields the empty record set, because the glob scan suppresses the error. -/
theorem get_backup_files_total (entries : List FsEntry) :
    get_backup_files { readable := false, entries := entries } = [] ∧
      get_backup_files { readable := true, entries := [] } = [] := by
  exact ⟨rfl, rfl⟩

/-- C3 counterexample: when the server stop succeeds but the archiving tool
exits non-zero, create_backup never invokes the server start command — the
CalledProcessError from tar propagates before step 5 can run. -/
theorem create_backup_tar_fail_no_start :
    Cmd.startServer ∉
      (create_backup ⟨true, false, true⟩ "/srv/minecraft/backups/daily"
        "20230101-120000").1 := by
  decide

/-- C3 amended: if the archiving tool exits non-zero, create_backup reports
the archiving failure to its caller, and the server start command is not
invoked: the error propagates immediately, skipping the start step. -/
theorem create_backup_tar_fail_propagates (env : Env) (d s : String)
    (hstop : env.stopOk = true) (htar : env.tarOk = false) :
    (create_backup env d s).2 = Except.error BackupError.tarFailed ∧
      Cmd.startServer ∉ (create_backup env d s).1 := by
  obtain ⟨so, ta, st⟩ := env
  simp only at hstop htar
  subst hstop htar
  simp [create_backup]

/-- Witness for the amended C3 theorem at a concrete environment. -/
theorem create_backup_tar_fail_propagates_witness :
    (create_backup ⟨true, false, true⟩ "d" "s").2 = Except.error BackupError.tarFailed ∧
      Cmd.startServer ∉ (create_backup ⟨true, false, true⟩ "d" "s").1 :=
  create_backup_tar_fail_propagates ⟨true, false, true⟩ "d" "s" rfl rfl

/-- C7: if the server stop command fails, create_backup propagates that
failure to its caller and the archiving tool is never invoked. -/
theorem create_backup_stop_fail_aborts (env : Env) (d s : String)
    (hstop : env.stopOk = false) :
    (create_backup env d s).2 = Except.error BackupError.stopFailed ∧
      ∀ p : String, Cmd.tarArchive p ∉ (create_backup env d s).1 := by
  obtain ⟨so, ta, st⟩ := env
  simp only at hstop
  subst hstop
  simp [create_backup]

/-- Witness for the C7 theorem at a concrete environment. -/
theorem create_backup_stop_fail_aborts_witness :
    (create_backup ⟨false, true, true⟩ "d" "s").2 = Except.error BackupError.stopFailed ∧
      ∀ p : String, Cmd.tarArchive p ∉ (create_backup ⟨false, true, true⟩ "d" "s").1 :=
  create_backup_stop_fail_aborts ⟨false, true, true⟩ "d" "s" rfl

/-- C4: contrary to the claim and to the repository's own unit tests,
create_backup never issues the gametime query in any environment, and the
filename it computes carries no gametime segment: at the tests' timestamp the
archive is named backup-20230101-120000.tar.gz, with no -g12345 part. -/
theorem create_backup_never_queries_gametime :
    (∀ env : Env, ∀ d s : String, Cmd.queryGametime ∉ (create_backup env d s).1) ∧
      get_new_backup_filename "20230101-120000" = "backup-20230101-120000.tar.gz" := by
  refine ⟨fun env d s => ?_, rfl⟩
  obtain ⟨so, ta, st⟩ := env
  cases so <;> cases ta <;> cases st <;> simp [create_backup]

/-- C9 counterexample: for a record whose filesystem metadata changes between
stats, a single deletion decision stats the path twice and its two
consultations observe different values: the selection test sees mtime 0 while
the log line records mtime 1, so metadata is not read at most once. -/
theorem delete_decision_rereads :
    delete_decision ⟨"b.tar.gz", fun k => if k = 0 then 0 else 1⟩ 1000000 345600 =
      (true, some 1, 2) := by
  rfl

/-- C9 amended: evaluating is_older_than_delta for a record (as one
needs_backup evaluation does) stats its metadata exactly once, but the
deletion pass stats a record once when it is kept and twice when it is
unlinked, because the deletion log line re-reads get_mtime after the
decision; the two reads need not observe the same value. -/
theorem delete_decision_read_count (f : StatFile) (now delta : Int) :
    (f.is_older_than_delta_eff now delta 0).2 = 1 ∧
      (delete_decision f now delta).2.2 =
        if (delete_decision f now delta).1 then 2 else 1 := by
  refine ⟨rfl, ?_⟩
  by_cases h : f.statResult 0 < now - |delta| <;>
    simp [delete_decision, StatFile.is_older_than_delta_eff, StatFile.get_mtime, h]

/-- C1: for each tier, needs_backup returns true iff every scanned record's
mtime lies strictly before now minus the tolerance-adjusted cadence (1 day,
1 week, 30 days, each minus 30 minutes), and for the empty record set it is
vacuously true. -/
theorem needs_backup_iff_all_older (dd wd md : TierDir) (now : Int) :
    (needs_daily_backup dd now = true ↔
      ∀ b ∈ get_backup_files dd, b.mtime < now - (day - 30 * minute)) ∧
    (needs_weekly_backup wd now = true ↔
      ∀ b ∈ get_backup_files wd, b.mtime < now - (week - 30 * minute)) ∧
    (needs_monthly_backup md now = true ↔
      ∀ b ∈ get_backup_files md, b.mtime < now - (30 * day - 30 * minute)) ∧
    (get_backup_files dd = [] → needs_daily_backup dd now = true) ∧
    (get_backup_files wd = [] → needs_weekly_backup wd now = true) ∧
    (get_backup_files md = [] → needs_monthly_backup md now = true) := by
  refine ⟨?_, ?_, ?_, fun h => ?_, fun h => ?_, fun h => ?_⟩ <;>
    simp [needs_daily_backup, needs_weekly_backup, needs_monthly_backup, List.all_eq_true,
      is_older_than_delta_eq_true, abs_daily_max_age, abs_weekly_max_age,
      abs_monthly_max_age, *]

/-- Witness for the C1 theorem: a daily tier whose scan yields the empty
record set needs a backup. -/
theorem needs_backup_iff_all_older_witness :
    needs_daily_backup { readable := true, entries := [] } 0 = true :=
  (needs_backup_iff_all_older { readable := true, entries := [] }
    { readable := true, entries := [] } { readable := true, entries := [] } 0).2.2.2.1 rfl

/-- C2: the deletion pass selects a record iff its mtime lies strictly before
now minus the tier's retention window (4 days, 3 weeks, 60 days), and a
record whose mtime equals exactly now minus the retention window is not
selected. -/
theorem delete_old_backups_strictly_older (dd wd md : TierDir) (now : Int) (b : BackupFile) :
    (b ∈ (delete_old_backups dd wd md now).1 ↔
      b ∈ get_backup_files dd ∧ b.mtime < now - 4 * day) ∧
    (b ∈ (delete_old_backups dd wd md now).2.1 ↔
      b ∈ get_backup_files wd ∧ b.mtime < now - 3 * week) ∧
    (b ∈ (delete_old_backups dd wd md now).2.2 ↔
      b ∈ get_backup_files md ∧ b.mtime < now - 60 * day) ∧
    (b.mtime = now - 4 * day → b ∉ (delete_old_backups dd wd md now).1) ∧
    (b.mtime = now - 3 * week → b ∉ (delete_old_backups dd wd md now).2.1) ∧
    (b.mtime = now - 60 * day → b ∉ (delete_old_backups dd wd md now).2.2) := by
  refine ⟨?_, ?_, ?_, fun h hmem => ?_, fun h hmem => ?_, fun h hmem => ?_⟩ <;>
    simp_all [delete_old_backups, delete_backups_older_than_delta, List.mem_filter,
      is_older_than_delta_eq_true, abs_daily_retention, abs_weekly_retention,
      abs_monthly_retention]

/-- Witness for the C2 theorem: a daily archive exactly 4 days old is not
selected for deletion. -/
theorem delete_old_backups_strictly_older_witness :
    BackupFile.mk "b.tar.gz" (-345600) ∉
      (delete_old_backups { readable := true, entries := [⟨"b.tar.gz", -345600⟩] }
        { readable := true, entries := [] } { readable := true, entries := [] } 0).1 :=
  (delete_old_backups_strictly_older
    { readable := true, entries := [⟨"b.tar.gz", -345600⟩] }
    { readable := true, entries := [] } { readable := true, entries := [] } 0
    (BackupFile.mk "b.tar.gz" (-345600))).2.2.2.1 (by norm_num [day])

/-- Scanner membership: a record comes from the directory listing exactly
when the directory is readable, its entry matches the backup glob and the
record copies that entry's path and mtime. -/
theorem mem_get_backup_files (dir : TierDir) (b : BackupFile) :
    b ∈ get_backup_files dir ↔
      dir.readable = true ∧
        ∃ e ∈ dir.entries, matchesBackupGlob e.relPath = true ∧
          b = ⟨e.relPath, e.mtime⟩ := by
  rw [get_backup_files]
  split
  next h => simp only [List.mem_map, List.mem_filter, h, true_and]; aesop
  next h => simp only [Bool.not_eq_true] at h; simp [h]

/-- C10: the deletion pass unlinks only records whose path matches the
recursive backup glob and whose mtime is strictly older than the retention
delta, and every entry of the tier directory that does not match the glob or
is not strictly older survives the pass (paths in a directory listing are
distinct). -/
theorem delete_pass_frame (dir : TierDir) (now delta : Int)
    (hnd : (dir.entries.map FsEntry.relPath).Nodup) :
    (∀ b ∈ delete_backups_older_than_delta dir now delta,
        matchesBackupGlob b.path = true ∧ b.mtime < now - |delta|) ∧
    (∀ e ∈ dir.entries,
        ¬(matchesBackupGlob e.relPath = true ∧ e.mtime < now - |delta|) →
          e ∈ (delete_pass dir now delta).entries) := by
  have hsel : ∀ b ∈ delete_backups_older_than_delta dir now delta,
      matchesBackupGlob b.path = true ∧ b.mtime < now - |delta| := by
    intro b hb
    rw [delete_backups_older_than_delta, List.mem_filter] at hb
    obtain ⟨hmem, holder⟩ := hb
    rw [is_older_than_delta_eq_true] at holder
    refine ⟨?_, holder⟩
    rw [mem_get_backup_files] at hmem
    obtain ⟨-, e, -, hm, rfl⟩ := hmem
    exact hm
  refine ⟨hsel, fun e he hkeep => ?_⟩
  rw [delete_pass]
  simp only [unlinkAll, List.mem_filter, decide_eq_true_eq]
  refine ⟨he, fun hcontains => ?_⟩
  simp only [List.mem_map] at hcontains
  obtain ⟨b, hbmem, hbpath⟩ := hcontains
  obtain ⟨hmatch, holder⟩ := hsel b hbmem
  have hbsrc := hbmem
  rw [delete_backups_older_than_delta, List.mem_filter, mem_get_backup_files] at hbsrc
  obtain ⟨⟨-, e', he', -, rfl⟩, -⟩ := hbsrc
  have : e' = e := by
    refine List.inj_on_of_nodup_map hnd he' he ?_
    simpa using hbpath
  subst this
  exact hkeep ⟨hmatch, holder⟩

/-- Witness for the C10 theorem: a log file sitting in the tier directory
survives the deletion pass. -/
theorem delete_pass_frame_witness :
    FsEntry.mk "server.log" 0 ∈
      (delete_pass { readable := true, entries := [⟨"old.tar.gz", 0⟩, ⟨"server.log", 0⟩] }
        1000000 345600).entries :=
  (delete_pass_frame { readable := true, entries := [⟨"old.tar.gz", 0⟩, ⟨"server.log", 0⟩] }
      1000000 345600 (by decide)).2 ⟨"server.log", 0⟩ (by decide)
    (fun h => absurd h.1 (by decide))

end ManageBackups
